import Mathlib

/-
Verification development for the games-esphome repository.

Shallow embedding of the ble_gamepad component:
  - the Xbox BLE HID report parser (xbox_controller.cpp),
  - the unified controller state (controller_base.h),
  - the HOGP initialization sequencer and its GATT event handlers
    (ble_gamepad.cpp), modelled as pure functions from an explicit state
    record to a new state plus a list of issued BLE-stack actions.

Machine integers are modelled as Nat (unsigned) and Int (signed), with C
truncating division rendered as Int.tdiv and the int8_t cast rendered as
an explicit wrap into the range -128..127.  Platform primitive calls
(esp_ble_...) are modelled on their success path; each handler records
the calls it issues as actions so that teardown behaviour is observable.
-/

namespace BleGamepad

/-- Button bitfield of the unified controller state
(controller_base.h, struct ControllerState, anonymous buttons struct). -/
structure GamepadButtons where
  dpad_up : Bool
  dpad_down : Bool
  dpad_left : Bool
  dpad_right : Bool
  button_south : Bool
  button_east : Bool
  button_west : Bool
  button_north : Bool
  button_l1 : Bool
  button_r1 : Bool
  button_l2 : Bool
  button_r2 : Bool
  button_l3 : Bool
  button_r3 : Bool
  button_select : Bool
  button_start : Bool
  button_home : Bool
  button_misc : Bool
deriving DecidableEq

/-- Unified controller state (controller_base.h, struct ControllerState).
Stick axes are int8_t (modelled as Int), triggers and battery are uint8_t
(modelled as Nat). -/
structure ControllerState where
  buttons : GamepadButtons
  left_stick_x : ℤ
  left_stick_y : ℤ
  right_stick_x : ℤ
  right_stick_y : ℤ
  left_trigger : ℕ
  right_trigger : ℕ
  battery_level : ℕ
  connected : Bool
deriving DecidableEq

/-- All-false button defaults (buttons = {} in ControllerState::reset). -/
def buttons_default : GamepadButtons :=
  { dpad_up := false, dpad_down := false, dpad_left := false, dpad_right := false
    button_south := false, button_east := false, button_west := false, button_north := false
    button_l1 := false, button_r1 := false, button_l2 := false, button_r2 := false
    button_l3 := false, button_r3 := false, button_select := false, button_start := false
    button_home := false, button_misc := false }

/-- Disconnected defaults written by ControllerState::reset()
(controller_base.h lines 63-73). -/
def reset_state : ControllerState :=
  { buttons := buttons_default
    left_stick_x := 0, left_stick_y := 0, right_stick_x := 0, right_stick_y := 0
    left_trigger := 0, right_trigger := 0
    battery_level := 255, connected := false }

/-- XboxController::on_connect (xbox_controller.cpp lines 32-35):
sets only the connected flag. -/
def on_connect (st : ControllerState) : ControllerState :=
  { st with connected := true }

/-- XboxController::on_disconnect (xbox_controller.cpp lines 37-40):
resets the whole state to defaults. -/
def on_disconnect (_ : ControllerState) : ControllerState :=
  reset_state

/-- Wrapping static_cast to int8_t of an in-range int32 value. -/
def int8_of_int32 (x : ℤ) : ℤ :=
  (x + 128).emod 256 - 128

/-- STICK_CENTER_16 constant (xbox_controller.cpp line 25). -/
def STICK_CENTER_16 : ℕ := 32768

/-- XboxController::normalize_stick_16_ (xbox_controller.cpp lines 122-130):
centered = (int32)raw - 32768; result = (int8_t)((centered * 127) / 32768),
with C division truncating toward zero (Int.tdiv). -/
def normalize_stick_16_ (raw : ℕ) : ℤ :=
  let centered : ℤ := (raw : ℤ) - (STICK_CENTER_16 : ℤ)
  int8_of_int32 (Int.tdiv (centered * 127) 32768)

/-- XboxController::parse_ble_report_ (xbox_controller.cpp lines 52-120).
Bytes past the length check are read at fixed offsets; the byte list stands
for the report buffer (out-of-range getD cannot occur for length >= 16).
The Y axes are negated and re-cast to int8_t by the field assignment. -/
def parse_ble_report_ (data : List ℕ) (st : ControllerState) : Option ControllerState :=
  if data.length < 16 then
    none
  else
    let lx_raw := data.getD 0 0 ||| (data.getD 1 0 <<< 8)
    let ly_raw := data.getD 2 0 ||| (data.getD 3 0 <<< 8)
    let rx_raw := data.getD 4 0 ||| (data.getD 5 0 <<< 8)
    let ry_raw := data.getD 6 0 ||| (data.getD 7 0 <<< 8)
    let lt_raw := data.getD 8 0 ||| ((data.getD 9 0 &&& 0x03) <<< 8)
    let rt_raw := data.getD 10 0 ||| ((data.getD 11 0 &&& 0x03) <<< 8)
    let hat := data.getD 12 0
    let btn13 := data.getD 13 0
    let btn14 := data.getD 14 0
    let btn15 := data.getD 15 0
    some
      { st with
        left_stick_x := normalize_stick_16_ lx_raw
        left_stick_y := int8_of_int32 (-(normalize_stick_16_ ly_raw))
        right_stick_x := normalize_stick_16_ rx_raw
        right_stick_y := int8_of_int32 (-(normalize_stick_16_ ry_raw))
        left_trigger := lt_raw * 255 / 1023
        right_trigger := rt_raw * 255 / 1023
        buttons :=
          { dpad_up := hat == 1 || hat == 2 || hat == 8
            dpad_down := hat == 4 || hat == 5 || hat == 6
            dpad_left := hat == 6 || hat == 7 || hat == 8
            dpad_right := hat == 2 || hat == 3 || hat == 4
            button_south := (btn13 &&& 0x01) != 0
            button_east := (btn13 &&& 0x02) != 0
            button_west := (btn13 &&& 0x08) != 0
            button_north := (btn13 &&& 0x10) != 0
            button_l1 := (btn13 &&& 0x40) != 0
            button_r1 := (btn13 &&& 0x80) != 0
            button_l2 := st.buttons.button_l2
            button_r2 := st.buttons.button_r2
            button_select := (btn14 &&& 0x04) != 0
            button_start := (btn14 &&& 0x08) != 0
            button_home := (btn14 &&& 0x10) != 0
            button_l3 := (btn14 &&& 0x20) != 0
            button_r3 := (btn14 &&& 0x40) != 0
            button_misc := (btn15 &&& 0x01) != 0 } }

/-- XboxController::parse_input_report (xbox_controller.cpp lines 42-50).
The null-pointer guard has no list counterpart; the length guard is kept. -/
def parse_input_report (report : List ℕ) (st : ControllerState) : Option ControllerState :=
  if report.length < 2 then
    none
  else
    parse_ble_report_ report st

/-- HOGP initialization states (ble_gamepad.h lines 184-195). -/
inductive InitState where
  | IDLE
  | READING_DIS_PNPID
  | READING_HID_INFO
  | READING_REPORT_MAP
  | SETTING_PROTOCOL_MODE
  | REGISTERING_NOTIFICATIONS
  | ENABLING_NOTIFICATIONS
  | READING_INITIAL_REPORT
  | COMPLETE
deriving DecidableEq

/-- One HID Report characteristic entry (ble_gamepad.h lines 174-177);
ccc_handle = 0 means no CCC descriptor was found. -/
structure HIDReportCharacteristic where
  char_handle : ℕ
  ccc_handle : ℕ
deriving DecidableEq

/-- Calls the event handlers issue into the BLE stack.  closeGatt stands for
esp_ble_gattc_close (issued by disconnect_), setScanParams for the scan
restart in start_scan_. -/
inductive BLEAction where
  | readChar (handle : ℕ)
  | writeChar (handle : ℕ) (value : ℕ)
  | writeDescr (handle : ℕ) (value : ℕ)
  | registerForNotify (handle : ℕ)
  | searchService (uuid : ℕ)
  | closeGatt
  | setScanParams
deriving DecidableEq

/-- HID service UUID 0x1812 (ble_gamepad.h line 36). -/
def HID_SERVICE_UUID : ℕ := 0x1812

/-- Mutable per-connection fields of BLEGamepad (ble_gamepad.h lines 149-205)
that the discovery/sequencer logic reads and writes.  active_controller
models the unique_ptr to the XboxController by an optional controller state. -/
structure BLEGamepadState where
  conn_id : ℕ
  connected : Bool
  scanning : Bool
  dis_service_start_handle : ℕ
  dis_service_end_handle : ℕ
  dis_pnp_id_handle : ℕ
  vendor_id : ℕ
  product_id : ℕ
  hid_service_start_handle : ℕ
  hid_service_end_handle : ℕ
  hid_info_handle : ℕ
  hid_report_map_handle : ℕ
  protocol_mode_handle : ℕ
  hid_report_chars : List HIDReportCharacteristic
  hid_report_map : List ℕ
  init_state : InitState
  service_discovery_retries : ℕ
  current_notify_index : ℕ
  active_controller : Option ControllerState
deriving DecidableEq

/-- BLEGamepad::disconnect_ (ble_gamepad.cpp lines 968-982) on the success
path of esp_ble_gattc_close: when connected it issues the close call and
waits for ESP_GATTC_CLOSE_EVT, touching no state itself. -/
def disconnect_ (s : BLEGamepadState) : BLEGamepadState × List BLEAction :=
  if s.connected then (s, [BLEAction.closeGatt]) else (s, [])

/-- BLEGamepad::start_scan_ (ble_gamepad.cpp lines 143-162) on the success
path of esp_ble_gap_set_scan_params: sets scanning_ = true. -/
def start_scan_ (s : BLEGamepadState) : BLEGamepadState × List BLEAction :=
  ({ s with scanning := true }, [BLEAction.setScanParams])

/-- ESP_GATTC_CLOSE_EVT handler (ble_gamepad.cpp lines 406-420): clears
connected_, drops the active controller if any (after its on_disconnect),
and restarts scanning.  No other field is written. -/
def close_evt (s : BLEGamepadState) : BLEGamepadState × List BLEAction :=
  let s1 := { s with connected := false }
  let s2 :=
    match s1.active_controller with
    | some _ => { s1 with active_controller := none }
    | none => s1
  start_scan_ s2

/-- First position with a nonzero ccc_handle in a characteristic list
(the linear searches at ble_gamepad.cpp lines 872-890 and 992-1005). -/
def first_ccc_search : List HIDReportCharacteristic → Option ℕ
  | [] => none
  | r :: rest =>
    if r.ccc_handle ≠ 0 then some 0
    else (first_ccc_search rest).map (fun k => k + 1)

/-- First index at or after start whose entry has a CCC descriptor handle. -/
def next_ccc_index (chars : List HIDReportCharacteristic) (start : ℕ) : Option ℕ :=
  (first_ccc_search (chars.drop start)).map (fun k => start + k)

/-- BLEGamepad::enable_all_notifications_ (ble_gamepad.cpp lines 984-1010):
enters REGISTERING_NOTIFICATIONS with index 0, registers for notifications
on the first CCC-bearing HID Report characteristic, and disconnects when no
characteristic has a CCC descriptor. -/
def enable_all_notifications_ (s : BLEGamepadState) : BLEGamepadState × List BLEAction :=
  let s1 := { s with
    init_state := InitState.REGISTERING_NOTIFICATIONS
    current_notify_index := 0 }
  match next_ccc_index s1.hid_report_chars 0 with
  | some i =>
      ({ s1 with current_notify_index := i },
        [BLEAction.registerForNotify ((s1.hid_report_chars.getD i ⟨0, 0⟩).char_handle)])
  | none => disconnect_ s1

/-- Tail of the ESP_GATTC_SEARCH_CMPL_EVT handler after HID characteristic
enumeration has populated hid_report_chars_ and the fixed handles
(ble_gamepad.cpp lines 635-684): validate the report characteristics, warn
(with no state effect) when none has a CCC descriptor, then start the HOGP
sequence at the first available step. -/
def hid_enum_complete (s : BLEGamepadState) : BLEGamepadState × List BLEAction :=
  if s.hid_report_chars.isEmpty then
    disconnect_ s
  else
    if s.hid_info_handle ≠ 0 then
      ({ s with init_state := InitState.READING_HID_INFO },
        [BLEAction.readChar s.hid_info_handle])
    else if s.hid_report_map_handle ≠ 0 then
      ({ s with init_state := InitState.READING_REPORT_MAP },
        [BLEAction.readChar s.hid_report_map_handle])
    else
      let s1 := { s with init_state := InitState.SETTING_PROTOCOL_MODE }
      if s1.protocol_mode_handle ≠ 0 then
        (s1, [BLEAction.writeChar s1.protocol_mode_handle 1])
      else
        enable_all_notifications_ s1

/-- ESP_GATTC_READ_CHAR_EVT handler (ble_gamepad.cpp lines 687-811).
status 0 is ESP_GATT_OK; any other status disconnects.  Dispatch is by
handle against the stored DIS-PnP-ID / HID-Info / Report-Map handles, and
otherwise by init_state_ == READING_INITIAL_REPORT with no handle check. -/
def read_char_evt (status handle : ℕ) (value : List ℕ) (s : BLEGamepadState) :
    BLEGamepadState × List BLEAction :=
  if status ≠ 0 then
    disconnect_ s
  else if handle = s.dis_pnp_id_handle then
    let s1 :=
      if 7 ≤ value.length then
        { s with
          vendor_id := (value.getD 2 0 <<< 8) ||| value.getD 1 0
          product_id := (value.getD 4 0 <<< 8) ||| value.getD 3 0 }
      else s
    (s1, [BLEAction.searchService HID_SERVICE_UUID])
  else if handle = s.hid_info_handle then
    if s.hid_report_map_handle ≠ 0 then
      ({ s with init_state := InitState.READING_REPORT_MAP },
        [BLEAction.readChar s.hid_report_map_handle])
    else
      let s1 := { s with init_state := InitState.SETTING_PROTOCOL_MODE }
      if s1.protocol_mode_handle ≠ 0 then
        (s1, [BLEAction.writeChar s1.protocol_mode_handle 1])
      else
        enable_all_notifications_ s1
  else if handle = s.hid_report_map_handle then
    let s1 := { s with hid_report_map := value }
    if s1.protocol_mode_handle ≠ 0 then
      ({ s1 with init_state := InitState.SETTING_PROTOCOL_MODE },
        [BLEAction.writeChar s1.protocol_mode_handle 1])
    else
      enable_all_notifications_ s1
  else if s.init_state = InitState.READING_INITIAL_REPORT then
    ({ s with
        init_state := InitState.COMPLETE
        service_discovery_retries := 0
        active_controller := some (on_connect reset_state) }, [])
  else
    (s, [])

/-- ESP_GATTC_WRITE_CHAR_EVT handler (ble_gamepad.cpp lines 813-824): on an
OK status for the Protocol Mode handle it proceeds to notification
enablement; a non-OK status only logs an error, and every other completion
is ignored. -/
def write_char_evt (status handle : ℕ) (s : BLEGamepadState) :
    BLEGamepadState × List BLEAction :=
  if status = 0 ∧ handle = s.protocol_mode_handle then
    enable_all_notifications_ s
  else
    (s, [])

/-- ESP_GATTC_REG_FOR_NOTIFY_EVT handler (ble_gamepad.cpp lines 826-853):
on OK status for the characteristic at current_notify_index_ it enters
ENABLING_NOTIFICATIONS and writes that entry's CCC descriptor; an OK status
for any other handle only logs; a non-OK status disconnects. -/
def reg_for_notify_evt (status handle : ℕ) (s : BLEGamepadState) :
    BLEGamepadState × List BLEAction :=
  if status = 0 then
    if s.current_notify_index < s.hid_report_chars.length ∧
        handle = (s.hid_report_chars.getD s.current_notify_index ⟨0, 0⟩).char_handle then
      ({ s with init_state := InitState.ENABLING_NOTIFICATIONS },
        [BLEAction.writeDescr
          ((s.hid_report_chars.getD s.current_notify_index ⟨0, 0⟩).ccc_handle) 1])
    else
      (s, [])
  else
    disconnect_ s

/-- ESP_GATTC_WRITE_DESCR_EVT handler (ble_gamepad.cpp lines 855-915): on an
OK status for one of the stored CCC handles while ENABLING_NOTIFICATIONS,
advance to the next CCC-bearing characteristic (register for notify on it),
or, when none remain, read the first CCC-bearing report characteristic to
prime the controller; a non-OK status disconnects. -/
def write_descr_evt (status handle : ℕ) (s : BLEGamepadState) :
    BLEGamepadState × List BLEAction :=
  if status = 0 then
    let is_hid_report_ccc := s.hid_report_chars.any (fun r => r.ccc_handle == handle)
    if is_hid_report_ccc ∧ s.init_state = InitState.ENABLING_NOTIFICATIONS then
      match next_ccc_index s.hid_report_chars (s.current_notify_index + 1) with
      | some i =>
          ({ s with
              current_notify_index := i
              init_state := InitState.REGISTERING_NOTIFICATIONS },
            [BLEAction.registerForNotify ((s.hid_report_chars.getD i ⟨0, 0⟩).char_handle)])
      | none =>
          match next_ccc_index s.hid_report_chars 0 with
          | some j =>
              ({ s with init_state := InitState.READING_INITIAL_REPORT },
                [BLEAction.readChar ((s.hid_report_chars.getD j ⟨0, 0⟩).char_handle)])
          | none => (s, [])
    else
      (s, [])
  else
    disconnect_ s

/-- Appearance constant for a generic gamepad (ble_gamepad.cpp line 17). -/
def BLE_APPEARANCE_GAMEPAD : ℕ := 0x03C4

/-- AD type constants from the ESP-IDF GAP API used by the scan filter. -/
def ESP_BLE_AD_TYPE_16SRV_PART : ℕ := 0x02

/-- Complete 16-bit service UUID list AD type. -/
def ESP_BLE_AD_TYPE_16SRV_CMPL : ℕ := 0x03

/-- Complete local name AD type. -/
def ESP_BLE_AD_TYPE_NAME_CMPL : ℕ := 0x09

/-- Appearance AD type. -/
def ESP_BLE_AD_TYPE_APPEARANCE : ℕ := 0x19

/-- ASCII bytes of the keyword Xbox checked by strstr. -/
def kw_xbox : List ℕ := [88, 98, 111, 120]

/-- ASCII bytes of the keyword Controller checked by strstr. -/
def kw_controller : List ℕ := [67, 111, 110, 116, 114, 111, 108, 108, 101, 114]

/-- ASCII bytes of the keyword Gamepad checked by strstr. -/
def kw_gamepad : List ℕ := [71, 97, 109, 101, 112, 97, 100]

/-- C strstr on byte lists: does the needle occur inside the haystack. -/
def strstr_contains (hay needle : List ℕ) : Bool :=
  match hay with
  | [] => needle.isEmpty
  | c :: rest => needle.isPrefixOf (c :: rest) || strstr_contains rest needle

/-- Number of name bytes copied by the memcpy at ble_gamepad.cpp line 282:
std::min((int)(length - 1), 31). -/
def name_copy_len (length : ℕ) : ℕ := min (length - 1) 31

/-- The string strstr sees in the zero-initialized 32-byte name buffer:
the copied bytes up to the first NUL. -/
def name_bytes (adv : List ℕ) (i length : ℕ) : List ℕ :=
  (((adv.drop (i + 2)).take (name_copy_len length)).takeWhile (fun b => b != 0))

/-- Inner 16-bit service-UUID list walk of the scan filter
(ble_gamepad.cpp lines 300-305): j = 0, 2, ... while j < length - 1, reading
adv_data at i+3+j and i+2+j.  Returns the list of byte offsets read and
whether the HID service UUID was seen. -/
def uuid_loop (adv : List ℕ) (i length j : ℕ) : List ℕ × Bool :=
  if h : j < length - 1 then
    let uuid := (adv.getD (i + 3 + j) 0 <<< 8) ||| adv.getD (i + 2 + j) 0
    let rest := uuid_loop adv i length (j + 2)
    ((i + 3 + j) :: (i + 2 + j) :: rest.1, (uuid == HID_SERVICE_UUID) || rest.2)
  else
    ([], false)
termination_by length - 1 - j
decreasing_by omega

/-- Advertisement parsing loop of BLEGamepad::gap_scan_event_handler
(ble_gamepad.cpp lines 265-309), instrumented with the list of byte offsets
it reads from adv_data.  Result: (offsets read, is_hid_device, is_gamepad).
A zero length byte or a structure exceeding the declared buffer stops the
loop after having read only the length byte of that structure. -/
def scan_filter_loop (adv : List ℕ) (adv_data_len i : ℕ) : List ℕ × Bool × Bool :=
  if _hlt : i < adv_data_len then
    let length := adv.getD i 0
    if length = 0 then
      ([i], false, false)
    else if adv_data_len < i + 1 + length then
      ([i], false, false)
    else
      let type := adv.getD (i + 1) 0
      let name_hit : List ℕ × Bool :=
        if type = ESP_BLE_AD_TYPE_NAME_CMPL ∧ 1 < length then
          let nm := name_bytes adv i length
          ((List.range (name_copy_len length)).map (fun k => i + 2 + k),
            strstr_contains nm kw_xbox || strstr_contains nm kw_controller ||
              strstr_contains nm kw_gamepad)
        else ([], false)
      let app_hit : List ℕ × Bool :=
        if type = ESP_BLE_AD_TYPE_APPEARANCE ∧ length = 3 then
          ([i + 3, i + 2],
            ((adv.getD (i + 3) 0 <<< 8) ||| adv.getD (i + 2) 0) == BLE_APPEARANCE_GAMEPAD)
        else ([], false)
      let srv_hit : List ℕ × Bool :=
        if type = ESP_BLE_AD_TYPE_16SRV_CMPL ∨ type = ESP_BLE_AD_TYPE_16SRV_PART then
          uuid_loop adv i length 0
        else ([], false)
      let rest := scan_filter_loop adv adv_data_len (i + length + 1)
      (i :: (i + 1) :: (name_hit.1 ++ app_hit.1 ++ srv_hit.1 ++ rest.1),
        srv_hit.2 || rest.2.1,
        name_hit.2 || app_hit.2 || rest.2.2)
  else
    ([], false, false)
termination_by adv_data_len - i
decreasing_by omega

/-- Acceptance decision of the scan filter (ble_gamepad.cpp line 312):
is_hid_device || is_gamepad after the parsing loop. -/
def gap_scan_accepts (adv : List ℕ) (adv_data_len : ℕ) : Bool :=
  let r := scan_filter_loop adv adv_data_len 0
  r.2.1 || r.2.2

/-
Concrete states used to evaluate the event handlers at specific inputs.
-/

/-- A fully defaulted bridge state (the field initializers of ble_gamepad.h). -/
def bridge0 : BLEGamepadState :=
  { conn_id := 0, connected := false, scanning := false
    dis_service_start_handle := 0, dis_service_end_handle := 0, dis_pnp_id_handle := 0
    vendor_id := 0, product_id := 0
    hid_service_start_handle := 0, hid_service_end_handle := 0
    hid_info_handle := 0, hid_report_map_handle := 0, protocol_mode_handle := 0
    hid_report_chars := [], hid_report_map := []
    init_state := InitState.IDLE, service_discovery_retries := 0
    current_notify_index := 0, active_controller := none }

/-- A connection mid-sequence with a fully populated handle table. -/
def c1_state : BLEGamepadState :=
  { bridge0 with
    connected := true, dis_pnp_id_handle := 10
    hid_service_start_handle := 35, hid_service_end_handle := 60
    hid_info_handle := 42, hid_report_map_handle := 25, protocol_mode_handle := 30
    hid_report_chars := [⟨40, 41⟩, ⟨44, 45⟩]
    init_state := InitState.ENABLING_NOTIFICATIONS
    service_discovery_retries := 2, current_notify_index := 1
    active_controller := some (on_connect reset_state) }

/-- A connection waiting on the initial priming read of handle 50. -/
def c2_state : BLEGamepadState :=
  { bridge0 with
    connected := true, dis_pnp_id_handle := 10, hid_info_handle := 20
    hid_report_map_handle := 25, protocol_mode_handle := 30
    hid_report_chars := [⟨50, 51⟩]
    init_state := InitState.READING_INITIAL_REPORT }

/-- Same connection but awaiting the HID-Information read. -/
def c2w_state : BLEGamepadState :=
  { c2_state with init_state := InitState.READING_HID_INFO }

/-- A connection whose only HID Report characteristic has no CCC descriptor. -/
def c3_state : BLEGamepadState :=
  { bridge0 with connected := true, hid_report_chars := [⟨50, 0⟩] }

/-- Same, but with an HID-Information characteristic present. -/
def c3w_state : BLEGamepadState :=
  { c3_state with hid_info_handle := 7 }

/-- A connection that has just issued the Protocol-Mode write to handle 30. -/
def c4_state : BLEGamepadState :=
  { bridge0 with
    connected := true, protocol_mode_handle := 30
    init_state := InitState.SETTING_PROTOCOL_MODE
    hid_report_chars := [⟨50, 51⟩] }

/-- A payload with one 16-bit service-UUID list AD structure whose length
byte (4) declares an odd number of UUID payload bytes and exactly fills the
5-byte buffer. -/
def c6_adv : List ℕ := [4, 3, 0x12, 0x18, 0xAA]

/-- The 16-byte Xbox report of end-to-end scenario 2. -/
def xbox_report_sample : List ℕ :=
  [0x00, 0x80, 0x00, 0x80, 0x00, 0x80, 0x00, 0x80,
    0xFF, 0x03, 0xFF, 0x03, 0x02, 0x01, 0x10, 0x00]

/-- A 16-byte report varying only the hat byte (byte 12). -/
def hat_report (h : ℕ) : List ℕ := [0, 0, 0, 0, 0, 0, 0, 0, 0, 0, 0, 0, h, 0, 0, 0]

/-- Projection of the four d-pad flags out of a parse result. -/
def dpad_of (o : Option ControllerState) : Option (Bool × Bool × Bool × Bool) :=
  o.map (fun s => (s.buttons.dpad_up, s.buttons.dpad_down, s.buttons.dpad_left,
    s.buttons.dpad_right))

/-- An all-zero 16-byte report used to exercise the frame condition. -/
def c10_report : List ℕ := List.replicate 16 0

/-- The state produced by parsing c10_report from the disconnected defaults. -/
def c10_parsed : ControllerState :=
  (parse_input_report c10_report reset_state).getD reset_state

/-
Helper lemmas about the stick normalization arithmetic.
-/

/-- The quotient computed by normalize_stick_16_ before the int8_t cast. -/
def stick_quot (raw : ℕ) : ℤ :=
  Int.tdiv (((raw : ℤ) - (STICK_CENTER_16 : ℤ)) * 127) 32768

theorem normalize_eq_cast_quot (raw : ℕ) :
    normalize_stick_16_ raw = int8_of_int32 (stick_quot raw) := rfl

theorem tdiv_cast_32768 (m : ℕ) : Int.tdiv (m : ℤ) 32768 = ((m / 32768 : ℕ) : ℤ) := rfl

theorem tdiv_neg_cast_32768 (m : ℕ) :
    Int.tdiv (-(m : ℤ)) 32768 = -((m / 32768 : ℕ) : ℤ) := by
  rw [Int.neg_tdiv, tdiv_cast_32768]

theorem stick_quot_of_ge (raw : ℕ) (h : 32768 ≤ raw) :
    stick_quot raw = (((raw - 32768) * 127 / 32768 : ℕ) : ℤ) := by
  unfold stick_quot STICK_CENTER_16
  have h1 : ((raw : ℤ) - ((32768 : ℕ) : ℤ)) * 127 = (((raw - 32768) * 127 : ℕ) : ℤ) := by
    push_cast [h]
    ring
  rw [h1, tdiv_cast_32768]

theorem stick_quot_of_lt (raw : ℕ) (h : raw < 32768) :
    stick_quot raw = -(((32768 - raw) * 127 / 32768 : ℕ) : ℤ) := by
  unfold stick_quot STICK_CENTER_16
  have h1 : ((raw : ℤ) - ((32768 : ℕ) : ℤ)) * 127 = -((((32768 - raw) * 127 : ℕ)) : ℤ) := by
    push_cast [Nat.le_of_lt h]
    ring
  rw [h1, tdiv_neg_cast_32768]

theorem stick_quot_le_126 (raw : ℕ) (h : raw ≤ 65535) : stick_quot raw ≤ 126 := by
  rcases le_or_lt 32768 raw with hge | hlt
  · rw [stick_quot_of_ge raw hge]
    have h2 : (raw - 32768) * 127 ≤ 4161409 := by omega
    have h3 : (raw - 32768) * 127 / 32768 ≤ 4161409 / 32768 := Nat.div_le_div_right h2
    have h4 : (raw - 32768) * 127 / 32768 ≤ 126 := by omega
    exact_mod_cast h4
  · rw [stick_quot_of_lt raw hlt]
    have h2 : (0 : ℤ) ≤ (((32768 - raw) * 127 / 32768 : ℕ) : ℤ) := Int.ofNat_nonneg _
    omega

theorem stick_quot_lower (raw : ℕ) : -127 ≤ stick_quot raw := by
  rcases le_or_lt 32768 raw with hge | hlt
  · rw [stick_quot_of_ge raw hge]
    have h2 : (0 : ℤ) ≤ (((raw - 32768) * 127 / 32768 : ℕ) : ℤ) := Int.ofNat_nonneg _
    omega
  · rw [stick_quot_of_lt raw hlt]
    have h2 : (32768 - raw) * 127 ≤ 4161536 := by omega
    have h3 : (32768 - raw) * 127 / 32768 ≤ 4161536 / 32768 := Nat.div_le_div_right h2
    have h4 : (32768 - raw) * 127 / 32768 ≤ 127 := by omega
    have h5 : (((32768 - raw) * 127 / 32768 : ℕ) : ℤ) ≤ 127 := by exact_mod_cast h4
    omega

theorem stick_quot_mono (r1 r2 : ℕ) (h : r1 ≤ r2) : stick_quot r1 ≤ stick_quot r2 := by
  rcases le_or_lt 32768 r1 with h1 | h1
  · have h2 : 32768 ≤ r2 := le_trans h1 h
    rw [stick_quot_of_ge r1 h1, stick_quot_of_ge r2 h2]
    have h3 : (r1 - 32768) * 127 / 32768 ≤ (r2 - 32768) * 127 / 32768 :=
      Nat.div_le_div_right (Nat.mul_le_mul_right 127 (by omega))
    exact_mod_cast h3
  · rcases le_or_lt 32768 r2 with h2 | h2
    · have h3 : stick_quot r1 ≤ 0 := by
        rw [stick_quot_of_lt r1 h1]
        have := Int.ofNat_nonneg ((32768 - r1) * 127 / 32768)
        omega
      have h4 : 0 ≤ stick_quot r2 := by
        rw [stick_quot_of_ge r2 h2]
        exact Int.ofNat_nonneg _
      omega
    · rw [stick_quot_of_lt r1 h1, stick_quot_of_lt r2 h2]
      have h3 : (32768 - r2) * 127 / 32768 ≤ (32768 - r1) * 127 / 32768 :=
        Nat.div_le_div_right (Nat.mul_le_mul_right 127 (by omega))
      have h4 : (((32768 - r2) * 127 / 32768 : ℕ) : ℤ) ≤
          (((32768 - r1) * 127 / 32768 : ℕ) : ℤ) := by exact_mod_cast h3
      omega

theorem int8_of_int32_eq_self (x : ℤ) (h1 : -128 ≤ x) (h2 : x ≤ 127) :
    int8_of_int32 x = x := by
  unfold int8_of_int32
  have h3 : (x + 128).emod 256 = x + 128 := Int.emod_eq_of_lt (by omega) (by omega)
  omega

theorem normalize_eq_quot (raw : ℕ) (h : raw ≤ 65535) :
    normalize_stick_16_ raw = stick_quot raw := by
  rw [normalize_eq_cast_quot]
  exact int8_of_int32_eq_self _
    (by have := stick_quot_lower raw; omega)
    (by have := stick_quot_le_126 raw h; omega)

/-- First-CCC search comes up empty when no entry has a CCC handle. -/
theorem first_ccc_search_none (l : List HIDReportCharacteristic)
    (h : ∀ r ∈ l, r.ccc_handle = 0) : first_ccc_search l = none := by
  induction l with
  | nil => rfl
  | cons a t ih =>
    have ha : a.ccc_handle = 0 := h a (by simp)
    have ht : ∀ r ∈ t, r.ccc_handle = 0 := fun r hr => h r (by simp [hr])
    simp [first_ccc_search, ha, ih ht]

theorem next_ccc_index_none (chars : List HIDReportCharacteristic) (start : ℕ)
    (h : ∀ r ∈ chars, r.ccc_handle = 0) : next_ccc_index chars start = none := by
  unfold next_ccc_index
  rw [first_ccc_search_none]
  · rfl
  · intro r hr
    exact h r (List.mem_of_mem_drop hr)

/-
Claim theorems.
-/

/-- Claim C1: the claim asserts that every teardown resets the handle table,
the HID-Report sequence, the init-state enum, the retry counter and
current_notify_index_ to disconnected defaults before scanning restarts.
The ESP_GATTC_CLOSE_EVT handler, the single point every teardown funnels
through, restarts scanning while leaving every one of those fields at its
stale mid-sequence value: evaluated at a populated connection state, the
handler output still carries the old handles, init state, retry count and
notify index. -/
theorem C1_close_keeps_stale_discovery_state :
    (close_evt c1_state).1.scanning = true ∧
    (close_evt c1_state).1.connected = false ∧
    (close_evt c1_state).1.active_controller = none ∧
    (close_evt c1_state).1.dis_pnp_id_handle = 10 ∧
    (close_evt c1_state).1.hid_info_handle = 42 ∧
    (close_evt c1_state).1.hid_report_map_handle = 25 ∧
    (close_evt c1_state).1.protocol_mode_handle = 30 ∧
    (close_evt c1_state).1.hid_report_chars = [⟨40, 41⟩, ⟨44, 45⟩] ∧
    (close_evt c1_state).1.init_state = InitState.ENABLING_NOTIFICATIONS ∧
    (close_evt c1_state).1.service_discovery_retries = 2 ∧
    (close_evt c1_state).1.current_notify_index = 1 := by decide

/-- Claim C2 (counterexample): while the sequencer waits on the priming read
of handle 50 (state READING_INITIAL_REPORT), an OK read completion for
handle 60 - which matches no stored handle and is not the awaited one -
advances the sequencer to COMPLETE instead of being ignored, because the
READING_INITIAL_REPORT branch of the read handler performs no handle
check. -/
theorem C2_counterexample :
    (∀ r ∈ c2_state.hid_report_chars, r.char_handle ≠ 60) ∧
    60 ≠ c2_state.dis_pnp_id_handle ∧
    60 ≠ c2_state.hid_info_handle ∧
    60 ≠ c2_state.hid_report_map_handle ∧
    c2_state.init_state = InitState.READING_INITIAL_REPORT ∧
    (read_char_evt 0 60 [] c2_state).1.init_state = InitState.COMPLETE ∧
    (read_char_evt 0 60 [] c2_state).1 ≠ c2_state := by decide

/-- Claim C2 (amended): an OK-status completion whose handle matches none of
the handles the handler dispatches on leaves the state unchanged and issues
no action - for reads provided the sequencer is not in
READING_INITIAL_REPORT (where the handle is not checked); non-OK statuses
are handled by the status checks, not by handle matching. -/
theorem C2_mismatched_handle_ok_status_ignored :
    ∀ (s : BLEGamepadState) (h : ℕ) (value : List ℕ),
      (h ≠ s.dis_pnp_id_handle → h ≠ s.hid_info_handle → h ≠ s.hid_report_map_handle →
        s.init_state ≠ InitState.READING_INITIAL_REPORT →
        read_char_evt 0 h value s = (s, [])) ∧
      (h ≠ s.protocol_mode_handle → write_char_evt 0 h s = (s, [])) ∧
      (¬ (s.current_notify_index < s.hid_report_chars.length ∧
            h = (s.hid_report_chars.getD s.current_notify_index ⟨0, 0⟩).char_handle) →
        reg_for_notify_evt 0 h s = (s, [])) ∧
      ((∀ r ∈ s.hid_report_chars, r.ccc_handle ≠ h) →
        write_descr_evt 0 h s = (s, [])) := by
  intro s h value
  refine ⟨?_, ?_, ?_, ?_⟩
  · intro h1 h2 h3 h4
    simp [read_char_evt, h1, h2, h3, h4]
  · intro h5
    simp [write_char_evt, h5]
  · intro h6
    unfold reg_for_notify_evt
    rw [if_pos rfl, if_neg h6]
  · intro h7
    have hany : s.hid_report_chars.any (fun r => r.ccc_handle == h) = false := by
      simp only [List.any_eq_false]
      intro r hr
      simpa using h7 r hr
    simp [write_descr_evt, hany]

/-- Witness for C2: the amended theorem applied at handle 99, which matches
nothing in a connection awaiting the HID-Information read. -/
theorem C2_witness :
    read_char_evt 0 99 [] c2w_state = (c2w_state, []) ∧
    write_char_evt 0 99 c2w_state = (c2w_state, []) ∧
    reg_for_notify_evt 0 99 c2w_state = (c2w_state, []) ∧
    write_descr_evt 0 99 c2w_state = (c2w_state, []) := by
  have h := C2_mismatched_handle_ok_status_ignored c2w_state 99 []
  exact ⟨h.1 (by decide) (by decide) (by decide) (by decide),
    h.2.1 (by decide), h.2.2.1 (by decide), h.2.2.2 (by decide)⟩

/-- Claim C3 (counterexample): with one HID Report characteristic and no CCC
descriptor anywhere, the post-enumeration continuation reaches
enable_all_notifications_, which disconnects - so the no-CCC case does
trigger a disconnect, contrary to the claim. -/
theorem C3_counterexample :
    c3_state.hid_report_chars ≠ [] ∧
    (∀ r ∈ c3_state.hid_report_chars, r.ccc_handle = 0) ∧
    (hid_enum_complete c3_state).2 = [BLEAction.closeGatt] := by decide

/-- Claim C3 (amended): when at least one HID Report characteristic exists
but none has a CCC descriptor, the enumeration step itself only warns and
continues the sequence (no disconnect) as long as any of the HID-Info,
Report-Map or Protocol-Mode handles is present; the disconnect happens only
once the sequencer reaches the notification-enabling step with no
CCC-bearing characteristic. -/
theorem C3_no_ccc_warns_then_enable_disconnects :
    ∀ s : BLEGamepadState,
      s.hid_report_chars ≠ [] →
      (∀ r ∈ s.hid_report_chars, r.ccc_handle = 0) →
      ((s.hid_info_handle ≠ 0 ∨ s.hid_report_map_handle ≠ 0 ∨ s.protocol_mode_handle ≠ 0) →
        BLEAction.closeGatt ∉ (hid_enum_complete s).2) ∧
      (s.connected = true → BLEAction.closeGatt ∈ (enable_all_notifications_ s).2) := by
  intro s hne hall
  have hne2 : s.hid_report_chars.isEmpty = false := by
    cases hchars : s.hid_report_chars with
    | nil => exact absurd hchars hne
    | cons a t => simp
  constructor
  · intro hsome
    by_cases hinfo : s.hid_info_handle = 0
    · by_cases hmap : s.hid_report_map_handle = 0
      · by_cases hpm : s.protocol_mode_handle = 0
        · rcases hsome with h | h | h <;> contradiction
        · simp [hid_enum_complete, hne2, hinfo, hmap, hpm]
      · simp [hid_enum_complete, hne2, hinfo, hmap]
    · simp [hid_enum_complete, hne2, hinfo]
  · intro hconn
    have hnone : next_ccc_index s.hid_report_chars 0 = none :=
      next_ccc_index_none s.hid_report_chars 0 hall
    simp [enable_all_notifications_, hnone, disconnect_, hconn]

/-- Witness for C3: a no-CCC connection that still has an HID-Information
characteristic continues at enumeration time but disconnects at the
notification-enabling step. -/
theorem C3_witness :
    BLEAction.closeGatt ∉ (hid_enum_complete c3w_state).2 ∧
    BLEAction.closeGatt ∈ (enable_all_notifications_ c3w_state).2 := by
  have h := C3_no_ccc_warns_then_enable_disconnects c3w_state (by decide) (by decide)
  exact ⟨h.1 (Or.inl (by decide)), h.2 (by decide)⟩

/-- Claim C4: the claim asserts every non-OK read/write completion
disconnects.  Evaluated at a non-OK (status 0x85) completion of the
Protocol-Mode characteristic write, the write handler leaves the state
unchanged and issues no action at all - the sequencer stalls in
SETTING_PROTOCOL_MODE - while the read, descriptor-write and
register-for-notify handlers do disconnect on the same status. -/
theorem C4_protocol_mode_write_failure_stalls :
    write_char_evt 133 30 c4_state = (c4_state, []) ∧
    read_char_evt 133 30 [] c4_state = (c4_state, [BLEAction.closeGatt]) ∧
    write_descr_evt 133 51 c4_state = (c4_state, [BLEAction.closeGatt]) ∧
    reg_for_notify_evt 133 50 c4_state = (c4_state, [BLEAction.closeGatt]) := by decide

/-- Claim C5 (counterexample): the claim fixes normalize(65535) = 127, but
the exact integer arithmetic of the source gives
(65535 - 32768) * 127 / 32768 = 126. -/
theorem C5_counterexample : normalize_stick_16_ 65535 ≠ 127 := by decide

/-- Claim C5 (amended): over raw values 0..65535 the stick normalization is
monotonic non-decreasing with normalize(32768) = 0, normalize(0) = -127 and
normalize(65535) = 126. -/
theorem C5_stick_normalization :
    (∀ r1 r2 : ℕ, r1 ≤ r2 → r2 ≤ 65535 →
      normalize_stick_16_ r1 ≤ normalize_stick_16_ r2) ∧
    normalize_stick_16_ 32768 = 0 ∧
    normalize_stick_16_ 0 = -127 ∧
    normalize_stick_16_ 65535 = 126 := by
  refine ⟨?_, by decide, by decide, by decide⟩
  intro r1 r2 h h2
  rw [normalize_eq_quot r1 (le_trans h h2), normalize_eq_quot r2 h2]
  exact stick_quot_mono r1 r2 h

/-- Witness for C5: monotonicity applied at the concrete pair 1000 and
60000. -/
theorem C5_witness : normalize_stick_16_ 1000 ≤ normalize_stick_16_ 60000 :=
  C5_stick_normalization.1 1000 60000 (by decide) (by decide)

/-- Claim C6: the claim asserts the scan filter never reads an offset at or
past adv_data_len.  On a 5-byte payload holding a 16-bit service-UUID list
structure with an odd UUID payload size (length byte 4), the inner UUID
walk reads offset 5 = adv_data_len: one byte past the declared buffer, even
though the structure itself passes the bound check. -/
theorem C6_uuid_walk_reads_past_declared_length :
    c6_adv.length = 5 ∧ (5 : ℕ) ∈ (scan_filter_loop c6_adv 5 0).1 := by
  constructor
  · rfl
  · simp [c6_adv, scan_filter_loop.eq_def, uuid_loop.eq_def, ESP_BLE_AD_TYPE_NAME_CMPL,
      ESP_BLE_AD_TYPE_APPEARANCE, ESP_BLE_AD_TYPE_16SRV_CMPL, ESP_BLE_AD_TYPE_16SRV_PART]

/-- Claim C7: parse_input_report fails exactly on reports shorter than 16
bytes; every report of length at least 16 produces an updated state. -/
theorem C7_parse_length_contract :
    ∀ (report : List ℕ) (st : ControllerState),
      parse_input_report report st = none ↔ report.length < 16 := by
  intro report st
  unfold parse_input_report parse_ble_report_
  by_cases h2 : report.length < 2
  · simp [h2]
    omega
  · by_cases h16 : report.length < 16
    · simp [h2, h16]
    · simp [h2, h16]

/-- Claim C8: the sample report 00 80 00 80 00 80 00 80 FF 03 FF 03 02 01 10
00 decodes to centered sticks, both triggers 255, d-pad up plus right,
button_south and button_home pressed and nothing else. -/
theorem C8_sample_report_decode :
    parse_input_report xbox_report_sample (on_connect reset_state) =
      some
        { buttons :=
            { buttons_default with
              dpad_up := true, dpad_right := true
              button_south := true, button_home := true }
          left_stick_x := 0, left_stick_y := 0, right_stick_x := 0, right_stick_y := 0
          left_trigger := 255, right_trigger := 255
          battery_level := 255, connected := true } := by decide

/-- Claim C9: hat value 0 yields no d-pad flags and values 1..8 yield
exactly the documented one-or-two flag combinations, as the tuple
(up, down, left, right) of the parsed report. -/
theorem C9_hat_decode :
    dpad_of (parse_input_report (hat_report 0) reset_state) = some (false, false, false, false) ∧
    dpad_of (parse_input_report (hat_report 1) reset_state) = some (true, false, false, false) ∧
    dpad_of (parse_input_report (hat_report 2) reset_state) = some (true, false, false, true) ∧
    dpad_of (parse_input_report (hat_report 3) reset_state) = some (false, false, false, true) ∧
    dpad_of (parse_input_report (hat_report 4) reset_state) = some (false, true, false, true) ∧
    dpad_of (parse_input_report (hat_report 5) reset_state) = some (false, true, false, false) ∧
    dpad_of (parse_input_report (hat_report 6) reset_state) = some (false, true, true, false) ∧
    dpad_of (parse_input_report (hat_report 7) reset_state) = some (false, false, true, false) ∧
    dpad_of (parse_input_report (hat_report 8) reset_state) = some (true, false, true, false) :=
  ⟨by decide, by decide, by decide, by decide, by decide, by decide, by decide, by decide,
    by decide⟩

/-- Claim C10: a successful parse never changes the connected flag or the
battery level; on_connect sets only the connected flag; on_disconnect
resets the whole state to the disconnected defaults. -/
theorem C10_parse_frame_effect :
    (∀ (data : List ℕ) (st st2 : ControllerState),
      parse_input_report data st = some st2 →
        st2.connected = st.connected ∧ st2.battery_level = st.battery_level) ∧
    (∀ st : ControllerState, on_connect st = { st with connected := true }) ∧
    (∀ st : ControllerState, on_disconnect st = reset_state) := by
  refine ⟨?_, fun st => rfl, fun st => rfl⟩
  intro data st st2 h
  unfold parse_input_report parse_ble_report_ at h
  split at h
  · exact absurd h (by simp)
  · split at h
    · exact absurd h (by simp)
    · simp only [Option.some.injEq] at h
      subst h
      exact ⟨rfl, rfl⟩

/-- Witness for C10: the frame condition applied to the all-zero report
parsed from the disconnected defaults. -/
theorem C10_witness :
    c10_parsed.connected = reset_state.connected ∧
    c10_parsed.battery_level = reset_state.battery_level :=
  C10_parse_frame_effect.1 c10_report reset_state c10_parsed (by decide)

end BleGamepad
